import Mathlib

/-!
Verification of the SSH-Executor batch-execution front end.

Definitions are shallow embeddings of the TypeScript sources:
 - `src/utils/errorMessages.ts` (`isRetryableError`),
 - `src/utils/validation.ts` (`validateIp`, `validatePort`, `validateHostname`,
   `validateSshConfig`, `isValidCommandResult`, `isValidBatchCommandResult`),
 - `src/pages/Workspace.tsx` (the `batch-result` listener's retry-timer and
   attempt-counter updates, `handleCancel`, the attempt-reset effect, the
   `execute_batch_commands` request object, and `estimatedExecutionTime`).

JavaScript strings are modelled as Lean `String`s, and `string.includes`,
`toLowerCase`, `trim` and `split` are re-implemented over `List Char` so that
every definition is executable and decidable.
-/

/-! ## String primitives (JS semantics) -/

/-- Boolean prefix test on character lists. -/
def isPrefixB : List Char → List Char → Bool
  | [], _ => true
  | _ :: _, [] => false
  | p :: ps, c :: cs => p == c && isPrefixB ps cs

/-- `containsSub s pat` is JS `s.includes(pat)`: `pat` occurs contiguously in `s`. -/
def containsSub : List Char → List Char → Bool
  | [], pat => pat.isEmpty
  | c :: cs, pat => isPrefixB pat (c :: cs) || containsSub cs pat

/-- `inc s pat` is JS `s.includes(pat)` on strings. -/
def inc (s pat : String) : Bool := containsSub s.data pat.data

/-- One character of JS `toLowerCase`, restricted to the alphabets that occur in
the source's phrase lists: ASCII `A`-`Z` and Cyrillic `А`-`Я`, `Ё`. -/
def jsCharLower (c : Char) : Char :=
  if 65 ≤ c.toNat ∧ c.toNat ≤ 90 then Char.ofNat (c.toNat + 32)
  else if 0x410 ≤ c.toNat ∧ c.toNat ≤ 0x42F then Char.ofNat (c.toNat + 32)
  else if c.toNat = 0x401 then Char.ofNat 0x451
  else c

/-- JS `s.toLowerCase()` on the alphabets used by the source. -/
def jsToLower (s : String) : String := ⟨s.data.map jsCharLower⟩

/-! ## `isRetryableError` (src/utils/errorMessages.ts lines 212-294)

The source lowercases the message once and then tests substring membership
against a fixed phrase list, category by category, first match wins.  Each
category guard below is the exact disjunction from the source. -/

/-- Guard of the authentication block (line 218). -/
def mentionsAuth (l : String) : Bool :=
  inc l "authentication" || inc l "аутентификац" || inc l "permission denied"

/-- Guard of the key sub-branch inside the authentication block (line 220). -/
def mentionsKey (l : String) : Bool := inc l "key" || inc l "ключ"

/-- Guard of the invalid-key sub-branch (lines 222-225). -/
def mentionsKeyInvalid (l : String) : Bool :=
  inc l "invalid" || inc l "неверн" ||
  inc l "combination invalid" || inc l "не подошел" ||
  inc l "not found" || inc l "не найден" ||
  inc l "file not found" || inc l "файл ключа не найден"

/-- Guard of the password sub-branch (line 229). -/
def mentionsPassword (l : String) : Bool := inc l "password" || inc l "парол"

/-- Guard of the username sub-branch (lines 233-234); `&&` binds tighter than `||`. -/
def mentionsUsername (l : String) : Bool :=
  inc l "username" || inc l "пользовател" || (inc l "user" && inc l "invalid")

/-- Guard of the validation block (lines 243-244). -/
def mentionsValidation (l : String) : Bool :=
  inc l "валидац" || inc l "validation" || inc l "безопасност" || inc l "dangerous"

/-- Guard of the key-file block (lines 249-250). -/
def mentionsKeyFileIssue (l : String) : Bool :=
  inc l "key file not found" || inc l "файл ключа не найден" ||
  (inc l "key path" && inc l "not found")

/-- Guard of the invalid-format/configuration block (lines 255-256). -/
def mentionsBadFormat (l : String) : Bool :=
  inc l "invalid format" || inc l "неверный формат" ||
  inc l "invalid configuration" || inc l "неверная конфигурация"

/-- Guard of the connection block (line 261). -/
def mentionsConnection (l : String) : Bool := inc l "connection" || inc l "подключ"

/-- Guard of the network block (lines 279-280). -/
def mentionsNetwork (l : String) : Bool :=
  inc l "network" || inc l "сеть" || inc l "dns" || inc l "resolve"

/-- Guard of the command-execution block (lines 286-287). -/
def mentionsExecution (l : String) : Bool :=
  inc l "execute" || inc l "выполнен" || (inc l "command" && inc l "error")

/-- Tail of the authentication block (lines 229-239): password, username,
then the block's final `return false`. -/
def authRest (l : String) : Bool :=
  if mentionsPassword l then false
  else if mentionsUsername l then false
  else false

/-- Body of the authentication block (lines 218-240): the key sub-branch can
fall through to `authRest`; every path returns `false`. -/
def authBlock (l : String) : Bool :=
  if mentionsKey l then
    (if mentionsKeyInvalid l then false else authRest l)
  else authRest l

/-- Body of the connection block (lines 261-276): every path returns `true`. -/
def connectionBlock (l : String) : Bool :=
  if inc l "timeout" || inc l "таймаут" then true
  else if inc l "refused" || inc l "отклонено" then true
  else if inc l "no route" || inc l "нет маршрута" then true
  else true

/-- The category dispatch of `isRetryableError` on the lowercased message
(lines 218-293), first match wins, default `true`. -/
def retryClassify (l : String) : Bool :=
  if mentionsAuth l then authBlock l
  else if mentionsValidation l then false
  else if mentionsKeyFileIssue l then false
  else if mentionsBadFormat l then false
  else if mentionsConnection l then connectionBlock l
  else if mentionsNetwork l then true
  else if mentionsExecution l then false
  else true

/-- `isRetryableError` (lines 212-294).  `none` models both `null` and
`undefined`; JS `if (!error) return false` is also taken by the empty string. -/
def isRetryableError (error : Option String) : Bool :=
  match error with
  | none => false
  | some err => if err = "" then false else retryClassify (jsToLower err)

/-! ## Untyped JS values

The validators in `src/utils/validation.ts` take `any`; they are embedded over
an inductive of JavaScript runtime values.  `typeof x === 'object'` is true for
objects, arrays and `null`; reading a missing field yields `undefined`. -/

/-- A JavaScript runtime value, as far as the validators inspect one. -/
inductive JSValue where
  | jsNull
  | undefined
  | str (s : String)
  | num (n : Int)
  | jsBool (b : Bool)
  | arr (elems : List JSValue)
  | obj (fields : List (String × JSValue))

/-- Property access `v[k]`: `undefined` on non-objects and missing keys. -/
def JSValue.getField : JSValue → String → JSValue
  | .obj fs, k => (fs.lookup k).getD .undefined
  | _, _ => .undefined

/-- JS `typeof v === 'string'`. -/
def JSValue.isStr : JSValue → Bool
  | .str _ => true
  | _ => false

/-- JS `typeof v === 'number'`. -/
def JSValue.isNum : JSValue → Bool
  | .num _ => true
  | _ => false

/-- JS `typeof v === 'object' && v !== null` (arrays included). -/
def JSValue.isObjectNonNull : JSValue → Bool
  | .obj _ => true
  | .arr _ => true
  | _ => false

/-- JS `v === null`. -/
def JSValue.isNullV : JSValue → Bool
  | .jsNull => true
  | _ => false

/-- JS `v === undefined`. -/
def JSValue.isUndefined : JSValue → Bool
  | .undefined => true
  | _ => false

/-- `isValidCommandResult` (src/utils/validation.ts lines 134-145). -/
def isValidCommandResult (data : JSValue) : Bool :=
  data.isObjectNonNull &&
  (data.getField "stdout").isStr &&
  (data.getField "stderr").isStr &&
  (data.getField "exit_status").isNum &&
  (data.getField "host").isStr &&
  ((data.getField "vehicle_id").isUndefined || (data.getField "vehicle_id").isStr) &&
  ((data.getField "timestamp").isUndefined || (data.getField "timestamp").isStr)

/-- `isValidBatchCommandResult` (src/utils/validation.ts lines 151-160). -/
def isValidBatchCommandResult (data : JSValue) : Bool :=
  data.isObjectNonNull &&
  (data.getField "host").isStr &&
  ((data.getField "result").isNullV || isValidCommandResult (data.getField "result")) &&
  ((data.getField "error").isNullV || (data.getField "error").isStr) &&
  ((data.getField "timestamp").isUndefined || (data.getField "timestamp").isStr)

/-- The per-host placeholder record created at batch start
(src/pages/Workspace.tsx lines 1249-1254): both `result` and `error` are
`null`, `host` is the entry's ip, `timestamp` the current ISO time. -/
def mkInitialResult (ip timestamp : String) : JSValue :=
  .obj [("result", .jsNull), ("error", .jsNull),
        ("host", .str ip), ("timestamp", .str timestamp)]

/-- A probe record whose `result` and `error` are both non-null, with a
well-typed `CommandResult` inside. -/
def bothNonNullRec : JSValue :=
  .obj [("host", .str "10.0.0.2"),
        ("result", .obj [("stdout", .str "hi"), ("stderr", .str ""),
                         ("exit_status", .num 0), ("host", .str "10.0.0.2")]),
        ("error", .str "boom")]

/-! ## Host and configuration validation (src/utils/validation.ts lines 1-80) -/

/-- JS `s.split(sep)` on character lists, accumulator form. -/
def splitCharAux (sep : Char) : List Char → List Char → List (List Char)
  | [], acc => [acc.reverse]
  | c :: cs, acc =>
    if c = sep then acc.reverse :: splitCharAux sep cs []
    else splitCharAux sep cs (c :: acc)

/-- JS `s.split(sep)` for a one-character separator. -/
def splitChar (sep : Char) (l : List Char) : List (List Char) :=
  splitCharAux sep l []

/-- `Number(part)` for a string of decimal digits. -/
def digitsToNat (p : List Char) : Nat :=
  p.foldl (fun a c => a * 10 + (c.toNat - 48)) 0

/-- The dotted-quad shape demanded by the regex
`^(\d\x7b1,3\x7d\.)\x7b3\x7d\d\x7b1,3\x7d$`: exactly four dot-separated
groups of one to three digits. -/
def ipFormatOk (parts : List (List Char)) : Bool :=
  parts.length == 4 &&
  parts.all (fun p => 1 ≤ p.length && p.length ≤ 3 && p.all Char.isDigit)

/-- The `every` body of `validateIp` (lines 8-17): no leading zero unless the
part is exactly `0`, and the numeric value is at most 255. -/
def validIpPart (p : List Char) : Bool :=
  if 1 < p.length && p.head? == some '0' then false
  else digitsToNat p ≤ 255

/-- `validateIp` (src/utils/validation.ts lines 1-18). -/
def validateIp (ip : String) : Bool :=
  let parts := splitChar '.' ip.data
  ipFormatOk parts && parts.all validIpPart

/-- `validatePort` (src/utils/validation.ts lines 20-22); ports are JS numbers. -/
def validatePort (port : Int) : Bool :=
  port > 0 && port ≤ 65535

/-- A character admitted anywhere in a DNS label: `[a-zA-Z0-9-]`. -/
def labelChar (c : Char) : Bool := c.isAlphanum || c == '-'

/-- One DNS label as matched by the hostname regex
`[a-zA-Z0-9]([a-zA-Z0-9-]\x7b0,61\x7d[a-zA-Z0-9])?`: first and last character
alphanumeric, interior alphanumeric or hyphen, length at most 63. -/
def validLabel : List Char → Bool
  | [] => false
  | c :: rest =>
    c.isAlphanum &&
    (c :: rest).length ≤ 63 &&
    ((c :: rest).getLast (List.cons_ne_nil c rest)).isAlphanum &&
    (c :: rest).all labelChar

/-- `validateHostname` (src/utils/validation.ts lines 24-28): length 1..253 and
one or more valid dot-separated labels. -/
def validateHostname (hostname : String) : Bool :=
  if hostname.length = 0 ∨ 253 < hostname.length then false
  else (splitChar '.' hostname.data).all validLabel

/-- JS `s.trim()` (whitespace stripped from both ends). -/
def jsTrim (s : String) : String :=
  ⟨((s.data.dropWhile Char.isWhitespace).reverse.dropWhile Char.isWhitespace).reverse⟩

/-- The argument record of `validateSshConfig` (lines 30-39).  Optional fields
are `Option`s; JS falsiness of an optional string is `none` or `some ""`. -/
structure SshConfigInput where
  host : String
  port : Int
  username : String
  auth_method : String
  password : Option String := none
  key_path : Option String := none
  ppk_path : Option String := none
  passwordMinLength : Option Nat := none
deriving DecidableEq

/-- The record returned by `validateSshConfig` (lines 76-79). -/
structure ValidationResult where
  valid : Bool
  errors : List String
deriving DecidableEq

/-- JS falsiness of an optional string: `undefined` or `""`. -/
def optFalsy : Option String → Bool
  | none => true
  | some s => s == ""

/-- `validateSshConfig` (src/utils/validation.ts lines 30-80), error messages
verbatim from the source. -/
def validateSshConfig (config : SshConfigInput) : ValidationResult :=
  let hostErrs :=
    if config.host = "" ∨ config.host = "batch" then []
    else if !validateIp config.host && !validateHostname config.host then
      ["Неверный формат хоста или IP-адреса"]
    else []
  let portErrs :=
    if !validatePort config.port then ["Неверный порт (должен быть от 1 до 65535)"] else []
  let userErrs :=
    if config.username = "" ∨ (jsTrim config.username).length = 0 then
      ["Имя пользователя не указано"]
    else []
  let pwdErrs :=
    if config.auth_method = "password" then
      if optFalsy config.password then ["Пароль не указан"]
      else
        match config.passwordMinLength, config.password with
        | some (k + 1), some pwd =>
          if pwd.length < k + 1 then
            ["Пароль должен содержать минимум " ++ toString (k + 1) ++ " символов"]
          else []
        | _, _ => []
    else []
  let keyErrs :=
    if config.auth_method = "key" then
      if optFalsy config.key_path = true ∨
         (jsTrim ((config.key_path).getD "")).length = 0 then
        ["Выбран метод аутентификации по ключу, но путь к ключу не указан"]
      else []
    else []
  let ppkErrs :=
    if config.auth_method = "ppk" then
      if optFalsy config.ppk_path = true ∨
         (jsTrim ((config.ppk_path).getD "")).length = 0 then
        ["Выбран метод аутентификации по PPK ключу, но путь к ключу не указан"]
      else []
    else []
  let errors := hostErrs ++ portErrs ++ userErrs ++ pwdErrs ++ keyErrs ++ ppkErrs
  { valid := errors.isEmpty, errors := errors }

/-! ## The `execute_batch_commands` request (src/pages/Workspace.tsx 1347-1357)

The request object literal handed to `invoke('execute_batch_commands', ...)`;
its fields are exactly those written in the source. -/

/-- The request object built in `handleBatchExecute`. -/
def mkBatchRequest (hosts config_template : JSValue) (command : String)
    (maxConcurrent : Int) (retryFailedHosts : Bool) (retryInterval : Int)
    (skipValidation : Bool) : JSValue :=
  .obj [("hosts", hosts),
        ("config_template", config_template),
        ("command", .str command),
        ("max_concurrent", .num maxConcurrent),
        ("retry_failed_hosts", .jsBool retryFailedHosts),
        ("retry_interval", .num retryInterval),
        ("skip_validation", .jsBool skipValidation)]

/-- The field names of an object value. -/
def JSValue.fieldNames : JSValue → List String
  | .obj fs => fs.map Prod.fst
  | _ => []

/-- A concrete instance of the request, as a probe. -/
def sampleBatchRequest : JSValue :=
  mkBatchRequest (.arr []) (.obj []) "uptime" 50 true 30 false

/-- A probe configuration whose host is the IPv6 loopback literal. -/
def ipv6Probe : SshConfigInput :=
  { host := "::1", port := 22, username := "root",
    auth_method := "password", password := some "secret" }

/-! ## The batch-result listener (src/pages/Workspace.tsx)

The retry bookkeeping of the Workspace page: `retryTimers` and `retryAttempts`
are JS `Map`s keyed by host, updated by the `batch-result` listener
(lines 1264-1337), cleared by `handleCancel` (lines 905-935), the countdown
interval (lines 741-758) and the attempt-reset effect (lines 729-733).
Maps are modelled as association lists where `List.lookup` finds the current
binding. -/

/-- JS `map.set(k, v)`: the new binding shadows any old one. -/
def mapSet (m : List (String × Nat)) (k : String) (v : Nat) : List (String × Nat) :=
  (k, v) :: m

/-- JS `map.delete(k)`. -/
def mapDelete (m : List (String × Nat)) (k : String) : List (String × Nat) :=
  m.filter (fun p => !(p.1 == k))

/-- JS `map.get(k)`: the current binding of `k`, if any. -/
def mapLookup (m : List (String × Nat)) (k : String) : Option Nat :=
  match m with
  | [] => none
  | p :: ps => if p.1 = k then some p.2 else mapLookup ps k

/-- The connection settings read by the listener via `loadSettings()`:
`retryFailedHosts`, `retryInterval`, `retryMaxAttempts` (0 = unbounded). -/
structure ConnSettings where
  retryEnabled : Bool
  retryInterval : Nat
  retryMaxAttempts : Nat
deriving DecidableEq

/-- The payload of one `batch-result` event (`BatchCommandResult`): `error` is
`string | null` (`none` = `null`), `resNonNull` records whether `result` is
non-null. -/
structure BatchResultEv where
  host : String
  error : Option String
  resNonNull : Bool
deriving DecidableEq

/-- The Workspace state touched by the retry bookkeeping. -/
structure UiState where
  retryTimers : List (String × Nat)
  retryAttempts : List (String × Nat)
  batchExecuting : Bool
deriving DecidableEq

/-- The events that mutate that state. -/
inductive UiEvent where
  /-- a `batch-result` event arrives (listener, lines 1264-1337) -/
  | result (r : BatchResultEv)
  /-- `handleCancel` (lines 905-935): clears all timers, stops executing -/
  | cancel
  /-- one second of the countdown interval (lines 741-758) -/
  | tick
  /-- batch start: `batchExecuting` becomes true and the effect at
  lines 729-733 resets the attempt counters -/
  | start
deriving DecidableEq

/-- `result.error?.includes('отменено') || result.error?.includes('отменен')`
(line 1277); optional chaining on `null` is falsy. -/
def errIncludesCancel : Option String → Bool
  | none => false
  | some m => inc m "отменено" || inc m "отменен"

/-- One step of the Workspace retry bookkeeping, the direct transcription of
the listener (lines 1277-1336), `handleCancel`, the countdown tick and the
attempt-reset effect. -/
def uiStep (g : ConnSettings) (s : UiState) (e : UiEvent) : UiState :=
  match e with
  | .start => { s with batchExecuting := true, retryAttempts := [] }
  | .cancel => { s with batchExecuting := false, retryTimers := [] }
  | .tick =>
    { s with retryTimers :=
        s.retryTimers.map (fun p => if 0 < p.2 then (p.1, p.2 - 1) else p) }
  | .result r =>
    if errIncludesCancel r.error || !g.retryEnabled then
      { s with retryTimers := mapDelete s.retryTimers r.host }
    else
      match r.error with
      | some msg =>
        if isRetryableError (some msg) then
          let cur := (mapLookup s.retryAttempts r.host).getD 0
          if g.retryMaxAttempts = 0 ∨ cur < g.retryMaxAttempts then
            { s with
              retryTimers :=
                if s.batchExecuting then mapSet s.retryTimers r.host g.retryInterval
                else s.retryTimers,
              retryAttempts := mapSet s.retryAttempts r.host (cur + 1) }
          else
            { s with retryTimers := mapDelete s.retryTimers r.host }
        else
          { s with retryTimers := mapDelete s.retryTimers r.host }
      | none =>
        if r.resNonNull then
          { s with retryTimers := mapDelete s.retryTimers r.host }
        else s

/-- A run of the bookkeeping: each event is processed with the settings current
at that moment (the listener re-reads `loadSettings()` per event). -/
def uiRun (s : UiState) (evs : List (ConnSettings × UiEvent)) : UiState :=
  evs.foldl (fun st p => uiStep p.1 st p.2) s

/-- The host an event is about, if it is a `batch-result` event. -/
def eventHost : UiEvent → Option String
  | .result r => some r.host
  | _ => none

/-! ## Worst-case time estimate (src/pages/Workspace.tsx lines 1616-1657) -/

/-- The `delaySum` of `estimatedExecutionTime` (line 1626):
`reconnectAttempts > 1 ? delayBase * (Math.pow(2, reconnectAttempts - 1) - 1) : 0`.
`delayBase` is a JS float (0.1..10), modelled as a rational. -/
def delaySum (reconnectAttempts : Nat) (delayBase : ℚ) : ℚ :=
  if 1 < reconnectAttempts then delayBase * ((2 : ℚ) ^ (reconnectAttempts - 1) - 1)
  else 0

/-! ## Batch scheduler concurrency (spec §4.5, §5)

Modelled from the spec: the Rust batch engine (`execute_batch_commands`) is not
part of the repository snapshot under `src/`; only its TypeScript callers are.
§4.5 specifies a worker pool of exactly `max_concurrent` tasks pulling pending
hosts from a shared queue; a session opens only when a worker is free, i.e.
when fewer than `max_concurrent` sessions are open.  The open/close counters
suggested by §8.4 are modelled as a transition system. -/

/-- Scheduler counters: hosts not yet started, sessions currently open,
hosts finished. -/
structure SchedState where
  pending : Nat
  running : Nat
  done : Nat
deriving DecidableEq

/-- An atomic scheduler event: a worker opens a session for the next pending
host, or an open session closes. -/
inductive SchedAction where
  | dispatch
  | complete
deriving DecidableEq

/-- Modelled from the spec: one scheduler transition (§4.5).  A dispatch
happens only when a pending host exists and fewer than `maxConcurrent`
sessions are open; a completion closes an open session. -/
def schedStep (maxConcurrent : Nat) (s : SchedState) (a : SchedAction) : SchedState :=
  match a with
  | .dispatch =>
    if 0 < s.pending ∧ s.running < maxConcurrent then
      { pending := s.pending - 1, running := s.running + 1, done := s.done }
    else s
  | .complete =>
    if 0 < s.running then
      { pending := s.pending, running := s.running - 1, done := s.done + 1 }
    else s

/-- Modelled from the spec: a batch run starts with every host pending and no
session open. -/
def schedInit (totalHosts : Nat) : SchedState :=
  { pending := totalHosts, running := 0, done := 0 }

/-- The state after a sequence of atomic scheduler events. -/
def schedRun (maxConcurrent totalHosts : Nat) (as : List SchedAction) : SchedState :=
  as.foldl (schedStep maxConcurrent) (schedInit totalHosts)

example : isRetryableError (some "Authentication failed") = false := by decide
example : isRetryableError (some "Connection refused") = true := by decide
example : isRetryableError (some "weird mystery glitch") = true := by decide
example : isRetryableError none = false := by decide
example : isRetryableError (some "") = false := by decide
example : isRetryableError (some "Ошибка аутентификации") = false := by decide
example : validateIp "10.0.0.1" = true := by decide
example : validateIp "::1" = false := by decide
example : validateHostname "example.com" = true := by decide
example : validateHostname "::1" = false := by decide
example : validateIp "01.2.3.4" = false := by decide
example : delaySum 2 1 = 1 := by norm_num [delaySum]
example : delaySum 3 1 = 3 := by norm_num [delaySum]

/-! ## Helper lemmas -/

/-- Every path of the authentication block returns `false`. -/
lemma authBlock_eq_false (l : String) : authBlock l = false := by
  simp [authBlock, authRest]

/-- Every path of the connection block returns `true`. -/
lemma connectionBlock_eq_true (l : String) : connectionBlock l = true := by
  simp [connectionBlock]

lemma mapLookup_set_self (m : List (String × Nat)) (k : String) (v : Nat) :
    mapLookup (mapSet m k v) k = some v := by
  simp [mapSet, mapLookup]

lemma mapLookup_set_ne (m : List (String × Nat)) (k h : String) (v : Nat)
    (hne : h ≠ k) : mapLookup (mapSet m k v) h = mapLookup m h := by
  simp [mapSet, mapLookup, Ne.symm hne]

lemma mapLookup_delete_self (m : List (String × Nat)) (k : String) :
    mapLookup (mapDelete m k) k = none := by
  induction m with
  | nil => rfl
  | cons p ps ih =>
    by_cases hp : p.1 = k
    · simpa [mapDelete, List.filter_cons, hp] using ih
    · simpa [mapDelete, List.filter_cons, beq_false_of_ne hp, mapLookup, hp] using ih

lemma mapLookup_delete_none (m : List (String × Nat)) (k h : String)
    (hs : mapLookup m h = none) : mapLookup (mapDelete m k) h = none := by
  induction m with
  | nil => rfl
  | cons p ps ih =>
    by_cases hph : p.1 = h
    · simp [mapLookup, hph] at hs
    · simp only [mapLookup, if_neg hph] at hs
      by_cases hp : p.1 = k
      · simpa [mapDelete, List.filter_cons, hp] using ih hs
      · simpa [mapDelete, List.filter_cons, beq_false_of_ne hp, mapLookup, hph]
          using ih hs

lemma mapLookup_tick_none (m : List (String × Nat)) (h : String)
    (hs : mapLookup m h = none) :
    mapLookup (m.map (fun p => if 0 < p.2 then (p.1, p.2 - 1) else p)) h = none := by
  induction m with
  | nil => rfl
  | cons p ps ih =>
    by_cases hph : p.1 = h
    · simp [mapLookup, hph] at hs
    · simp only [mapLookup, if_neg hph] at hs
      by_cases h2 : 0 < p.2 <;>
        simp [List.map_cons, h2, mapLookup, hph, ih hs]

/-! ## Claim theorems -/

/-- C2: a failure message that matches none of the classifier's phrase
categories (authentication, validation, key-file, bad-format,
connection/timeout, network, command-execution) falls through to the
conservative default: `isRetryableError` returns `true`. -/
theorem unmatched_error_is_retryable (msg : String)
    (hne : msg ≠ "")
    (h1 : mentionsAuth (jsToLower msg) = false)
    (h2 : mentionsValidation (jsToLower msg) = false)
    (h3 : mentionsKeyFileIssue (jsToLower msg) = false)
    (h4 : mentionsBadFormat (jsToLower msg) = false)
    (h5 : mentionsConnection (jsToLower msg) = false)
    (h6 : mentionsNetwork (jsToLower msg) = false)
    (h7 : mentionsExecution (jsToLower msg) = false) :
    isRetryableError (some msg) = true := by
  simp [isRetryableError, hne, retryClassify, h1, h2, h3, h4, h5, h6, h7]

/-- Witness for C2 at the concrete message "weird mystery glitch". -/
theorem unmatched_error_is_retryable_witness :
    ("weird mystery glitch" ≠ "" ∧
      mentionsAuth (jsToLower "weird mystery glitch") = false ∧
      mentionsValidation (jsToLower "weird mystery glitch") = false ∧
      mentionsKeyFileIssue (jsToLower "weird mystery glitch") = false ∧
      mentionsBadFormat (jsToLower "weird mystery glitch") = false ∧
      mentionsConnection (jsToLower "weird mystery glitch") = false ∧
      mentionsNetwork (jsToLower "weird mystery glitch") = false ∧
      mentionsExecution (jsToLower "weird mystery glitch") = false) ∧
    isRetryableError (some "weird mystery glitch") = true :=
  ⟨⟨by decide, by decide, by decide, by decide, by decide, by decide, by decide,
    by decide⟩,
   unmatched_error_is_retryable "weird mystery glitch" (by decide) (by decide)
     (by decide) (by decide) (by decide) (by decide) (by decide) (by decide)⟩

/-- C3: a message containing an authentication-denial phrase ("authentication",
"аутентификац" or "permission denied" after lowercasing) is classified
non-retryable: `isRetryableError` returns `false`. -/
theorem auth_denied_not_retryable (msg : String)
    (h : mentionsAuth (jsToLower msg) = true) :
    isRetryableError (some msg) = false := by
  by_cases he : msg = ""
  · subst he
    exact absurd h (by decide)
  · simp [isRetryableError, he, retryClassify, h, authBlock_eq_false]

/-- Witness for C3 at the concrete message "Authentication failed". -/
theorem auth_denied_not_retryable_witness :
    mentionsAuth (jsToLower "Authentication failed") = true ∧
    isRetryableError (some "Authentication failed") = false :=
  ⟨by decide, auth_denied_not_retryable "Authentication failed" (by decide)⟩

/-- Each step leaves `retryTimers` one of: unchanged, emptied, a deletion of
the stepped host, a decrement-only tick, or an insertion for the stepped
result host. -/
lemma uiStep_result_timers_cases (g : ConnSettings) (s : UiState) (r : BatchResultEv) :
    (uiStep g s (.result r)).retryTimers = mapDelete s.retryTimers r.host ∨
    (uiStep g s (.result r)).retryTimers = mapSet s.retryTimers r.host g.retryInterval ∨
    (uiStep g s (.result r)).retryTimers = s.retryTimers := by
  simp only [uiStep]
  split
  · left; rfl
  · split
    · split
      · split
        · split
          · right; left; rfl
          · right; right; rfl
        · left; rfl
      · left; rfl
    · split
      · left; rfl
      · right; right; rfl

/-- A step about some other host (or no host) cannot create a retry timer
for `h`. -/
lemma uiStep_preserves_no_timer (g : ConnSettings) (s : UiState) (e : UiEvent)
    (h : String) (hs : mapLookup s.retryTimers h = none)
    (he : eventHost e ≠ some h) :
    mapLookup (uiStep g s e).retryTimers h = none := by
  cases e with
  | start => simpa [uiStep] using hs
  | cancel => simp [uiStep, mapLookup]
  | tick => exact mapLookup_tick_none _ _ hs
  | result r =>
    have hrh : h ≠ r.host := by
      intro hh
      exact he (by simp [eventHost, hh])
    rcases uiStep_result_timers_cases g s r with hc | hc | hc <;> rw [hc]
    · exact mapLookup_delete_none _ _ _ hs
    · rw [mapLookup_set_ne _ _ _ _ hrh]
      exact hs
    · exact hs

/-- Once `h` has no retry timer, a run of events containing no `batch-result`
event for `h` never creates one. -/
lemma uiRun_preserves_no_timer (h : String) :
    ∀ (evs : List (ConnSettings × UiEvent)) (s : UiState),
      mapLookup s.retryTimers h = none →
      (∀ p ∈ evs, eventHost p.2 ≠ some h) →
      mapLookup (uiRun s evs).retryTimers h = none := by
  intro evs
  induction evs with
  | nil => intro s hs _; exact hs
  | cons p ps ih =>
    intro s hs hev
    have h1 := uiStep_preserves_no_timer p.1 s p.2 h hs (hev p (by simp))
    exact ih (uiStep p.1 s p.2) h1 (fun q hq => hev q (by simp [hq]))

/-- C4: when a `batch-result` event reports a cancellation (message contains
"отменен") or a failure the classifier marks non-retryable, the listener
removes the retry timer for that host, and no later event about other hosts
(ticks and cancels included) re-creates it: the host is never re-scheduled. -/
theorem terminal_failure_no_retry_timer (g : ConnSettings) (s : UiState)
    (r : BatchResultEv) (msg : String)
    (evs : List (ConnSettings × UiEvent))
    (herr : r.error = some msg)
    (hkind : errIncludesCancel (some msg) = true ∨ isRetryableError (some msg) = false)
    (hothers : ∀ p ∈ evs, eventHost p.2 ≠ some r.host) :
    mapLookup (uiRun (uiStep g s (.result r)) evs).retryTimers r.host = none := by
  have hstep : mapLookup (uiStep g s (.result r)).retryTimers r.host = none := by
    simp only [uiStep, herr]
    by_cases hc : (errIncludesCancel (some msg) || !g.retryEnabled) = true
    · simp only [hc, if_true]
      exact mapLookup_delete_self _ _
    · have hnc : errIncludesCancel (some msg) = false := by
        rcases hb : errIncludesCancel (some msg) with _ | _
        · rfl
        · exact absurd (by simp [hb]) hc
      have hr : isRetryableError (some msg) = false := by
        rcases hkind with hk | hk
        · exact absurd hk (by simp [hnc])
        · exact hk
      simp only [Bool.not_eq_true] at hc
      simp only [hc, Bool.false_eq_true, if_false, hr]
      exact mapLookup_delete_self _ _
  exact uiRun_preserves_no_timer r.host evs _ hstep hothers

/-- Witness for C4: an authentication failure for host 10.0.0.1, followed by a
tick and a transient failure of a different host, leaves 10.0.0.1 without a
retry timer. -/
theorem terminal_failure_no_retry_timer_witness :
    ((⟨"10.0.0.1", some "authentication failed", false⟩ : BatchResultEv).error =
        some "authentication failed" ∧
      (errIncludesCancel (some "authentication failed") = true ∨
        isRetryableError (some "authentication failed") = false) ∧
      (∀ p ∈ [((⟨true, 30, 0⟩ : ConnSettings), UiEvent.tick),
              ((⟨true, 30, 0⟩ : ConnSettings),
                UiEvent.result ⟨"10.0.0.2", some "connection refused", false⟩)],
        eventHost p.2 ≠ some "10.0.0.1")) ∧
    mapLookup (uiRun
        (uiStep ⟨true, 30, 0⟩ ⟨[("10.0.0.1", 7)], [], true⟩
          (.result ⟨"10.0.0.1", some "authentication failed", false⟩))
        [((⟨true, 30, 0⟩ : ConnSettings), UiEvent.tick),
         ((⟨true, 30, 0⟩ : ConnSettings),
           UiEvent.result ⟨"10.0.0.2", some "connection refused", false⟩)]).retryTimers
      "10.0.0.1" = none :=
  ⟨⟨by decide, Or.inr (by decide), by decide⟩,
   terminal_failure_no_retry_timer ⟨true, 30, 0⟩ ⟨[("10.0.0.1", 7)], [], true⟩
     ⟨"10.0.0.1", some "authentication failed", false⟩ "authentication failed"
     [((⟨true, 30, 0⟩ : ConnSettings), UiEvent.tick),
      ((⟨true, 30, 0⟩ : ConnSettings),
        UiEvent.result ⟨"10.0.0.2", some "connection refused", false⟩)]
     (by decide) (Or.inr (by decide)) (by decide)⟩

/-- A step changes `retryAttempts` only by leaving it, emptying it at batch
start, or incrementing the stepped host under the attempt cap. -/
lemma uiStep_attempts_cases (g : ConnSettings) (s : UiState) (e : UiEvent) :
    (uiStep g s e).retryAttempts = s.retryAttempts ∨
    (uiStep g s e).retryAttempts = [] ∨
    (∃ r : BatchResultEv,
      e = .result r ∧
      (g.retryMaxAttempts = 0 ∨
        (mapLookup s.retryAttempts r.host).getD 0 < g.retryMaxAttempts) ∧
      (uiStep g s e).retryAttempts =
        mapSet s.retryAttempts r.host
          ((mapLookup s.retryAttempts r.host).getD 0 + 1)) := by
  cases e with
  | start => right; left; rfl
  | cancel => left; rfl
  | tick => left; rfl
  | result r =>
    simp only [uiStep]
    split
    · left; rfl
    · split
      · split
        · split
          · next hcap => right; right; exact ⟨r, rfl, hcap, rfl⟩
          · left; rfl
        · left; rfl
      · split
        · left; rfl
        · left; rfl

/-- With a fixed non-zero cap `m`, one step keeps every attempt counter at
most `m`. -/
lemma uiStep_attempts_bound (m : Nat) (hm : m ≠ 0) (g : ConnSettings)
    (hg : g.retryMaxAttempts = m) (s : UiState) (e : UiEvent) (h : String)
    (hs : (mapLookup s.retryAttempts h).getD 0 ≤ m) :
    (mapLookup (uiStep g s e).retryAttempts h).getD 0 ≤ m := by
  rcases uiStep_attempts_cases g s e with hc | hc | ⟨r, _, hcap, hc⟩
  · rw [hc]; exact hs
  · rw [hc]; simp [mapLookup]
  · rw [hc]
    by_cases hrh : h = r.host
    · rw [hrh, mapLookup_set_self]
      have hcur : (mapLookup s.retryAttempts r.host).getD 0 < m := by
        rcases hcap with h0 | hlt
        · exact absurd (hg ▸ h0) hm
        · rwa [hg] at hlt
      simpa using hcur
    · rw [mapLookup_set_ne _ _ _ _ hrh]
      exact hs

/-- The step bound extended to a run with a fixed cap across all events. -/
lemma uiRun_attempts_bound (m : Nat) (hm : m ≠ 0) :
    ∀ (evs : List (ConnSettings × UiEvent)) (s : UiState) (h : String),
      (∀ p ∈ evs, p.1.retryMaxAttempts = m) →
      (mapLookup s.retryAttempts h).getD 0 ≤ m →
      (mapLookup (uiRun s evs).retryAttempts h).getD 0 ≤ m := by
  intro evs
  induction evs with
  | nil => intro s h _ hs; exact hs
  | cons p ps ih =>
    intro s h hev hs
    exact ih (uiStep p.1 s p.2) h (fun q hq => hev q (by simp [hq]))
      (uiStep_attempts_bound m hm p.1 (hev p (by simp)) s p.2 h hs)

/-- C5: with `retry_max_attempts = m ≠ 0` throughout a run, the per-host
attempt counters are reset at batch start, never exceed `m` afterwards, and a
host whose counter has reached `m` gets no retry timer from a further
failure event. -/
theorem retry_attempts_capped (g0 : ConnSettings) (s0 : UiState) (m : Nat)
    (h : String) (evs : List (ConnSettings × UiEvent))
    (hm : m ≠ 0) (hevs : ∀ p ∈ evs, p.1.retryMaxAttempts = m) :
    (uiStep g0 s0 .start).retryAttempts = [] ∧
    (mapLookup (uiRun (uiStep g0 s0 .start) evs).retryAttempts h).getD 0 ≤ m ∧
    (∀ (g : ConnSettings) (s : UiState) (r : BatchResultEv) (msg : String),
      g.retryMaxAttempts = m → r.error = some msg →
      m ≤ (mapLookup s.retryAttempts r.host).getD 0 →
      mapLookup (uiStep g s (.result r)).retryTimers r.host = none) := by
  refine ⟨rfl, ?_, ?_⟩
  · exact uiRun_attempts_bound m hm evs _ h hevs (by simp [uiStep, mapLookup])
  · intro g s r msg hg herr hcur
    simp only [uiStep, herr]
    by_cases hc : (errIncludesCancel (some msg) || !g.retryEnabled) = true
    · simp only [hc, if_true]
      exact mapLookup_delete_self _ _
    · simp only [Bool.not_eq_true] at hc
      simp only [hc, Bool.false_eq_true, if_false]
      by_cases hr : isRetryableError (some msg) = true
      · simp only [hr, if_true]
        have hnot : ¬(g.retryMaxAttempts = 0 ∨
            (mapLookup s.retryAttempts r.host).getD 0 < g.retryMaxAttempts) := by
          rw [hg]
          push_neg
          exact ⟨hm, hcur⟩
        rw [if_neg hnot]
        exact mapLookup_delete_self _ _
      · simp only [Bool.not_eq_true] at hr
        simp only [hr, Bool.false_eq_true, if_false]
        exact mapLookup_delete_self _ _

/-- Witness for C5: cap 2, three transient failures of the same host; the
counter stays at most 2. -/
theorem retry_attempts_capped_witness :
    ((2 : Nat) ≠ 0 ∧
      (∀ p ∈ [((⟨true, 30, 2⟩ : ConnSettings),
                UiEvent.result ⟨"10.0.0.1", some "connection refused", false⟩),
              ((⟨true, 30, 2⟩ : ConnSettings),
                UiEvent.result ⟨"10.0.0.1", some "connection refused", false⟩),
              ((⟨true, 30, 2⟩ : ConnSettings),
                UiEvent.result ⟨"10.0.0.1", some "connection refused", false⟩)],
        p.1.retryMaxAttempts = 2)) ∧
    ((uiStep ⟨true, 30, 2⟩ ⟨[], [("10.0.0.1", 99)], false⟩ .start).retryAttempts = [] ∧
      (mapLookup (uiRun
          (uiStep ⟨true, 30, 2⟩ ⟨[], [("10.0.0.1", 99)], false⟩ .start)
          [((⟨true, 30, 2⟩ : ConnSettings),
             UiEvent.result ⟨"10.0.0.1", some "connection refused", false⟩),
           ((⟨true, 30, 2⟩ : ConnSettings),
             UiEvent.result ⟨"10.0.0.1", some "connection refused", false⟩),
           ((⟨true, 30, 2⟩ : ConnSettings),
             UiEvent.result ⟨"10.0.0.1", some "connection refused", false⟩)]).retryAttempts
        "10.0.0.1").getD 0 ≤ 2 ∧
      (∀ (g : ConnSettings) (s : UiState) (r : BatchResultEv) (msg : String),
        g.retryMaxAttempts = 2 → r.error = some msg →
        2 ≤ (mapLookup s.retryAttempts r.host).getD 0 →
        mapLookup (uiStep g s (.result r)).retryTimers r.host = none)) :=
  ⟨⟨by decide, by decide⟩,
   retry_attempts_capped ⟨true, 30, 2⟩ ⟨[], [("10.0.0.1", 99)], false⟩ 2
     "10.0.0.1"
     [((⟨true, 30, 2⟩ : ConnSettings),
        UiEvent.result ⟨"10.0.0.1", some "connection refused", false⟩),
      ((⟨true, 30, 2⟩ : ConnSettings),
        UiEvent.result ⟨"10.0.0.1", some "connection refused", false⟩),
      ((⟨true, 30, 2⟩ : ConnSettings),
        UiEvent.result ⟨"10.0.0.1", some "connection refused", false⟩)]
     (by decide) (by decide)⟩

/-- C10: a `null`/`undefined` (modelled as `none`) or empty error message is
never treated as retryable, even though an unrecognized non-empty message
defaults to retryable. -/
theorem absent_error_not_retryable :
    isRetryableError none = false ∧
    isRetryableError (some "") = false ∧
    isRetryableError (some "unexpected failure") = true := by
  refine ⟨rfl, by decide, by decide⟩

/-- Counterexample to C1: the placeholder record created for every host at
batch start has `result` and `error` both null, yet
`isValidBatchCommandResult` accepts it — a record with both fields null is
both produced and accepted. -/
theorem both_null_record_accepted :
    isValidBatchCommandResult (mkInitialResult "10.0.0.1" "2026-10-12T00:00:00Z") = true ∧
    ((mkInitialResult "10.0.0.1" "2026-10-12T00:00:00Z").getField "result").isNullV = true ∧
    ((mkInitialResult "10.0.0.1" "2026-10-12T00:00:00Z").getField "error").isNullV = true :=
  ⟨rfl, rfl, rfl⟩

/-- C1 amended: the validator enforces only per-field shape, not exclusivity:
every batch-start placeholder (both fields null) passes it, and so does a
record with both fields non-null. -/
theorem batch_record_validator_shape_only (ip ts : String) :
    isValidBatchCommandResult (mkInitialResult ip ts) = true ∧
    ((mkInitialResult ip ts).getField "result").isNullV = true ∧
    ((mkInitialResult ip ts).getField "error").isNullV = true ∧
    isValidBatchCommandResult bothNonNullRec = true ∧
    (bothNonNullRec.getField "result").isNullV = false ∧
    (bothNonNullRec.getField "error").isNullV = false :=
  ⟨rfl, rfl, rfl, rfl, rfl, rfl⟩

/-- Counterexample to C6: the request object handed to
`execute_batch_commands` has no `retry_max_attempts` field. -/
theorem retry_max_attempts_absent :
    "retry_max_attempts" ∉ sampleBatchRequest.fieldNames ∧
    (sampleBatchRequest.getField "retry_max_attempts").isUndefined = true :=
  ⟨by decide, rfl⟩

/-- C6 amended: the request carries exactly `hosts`, `config_template`,
`command`, `max_concurrent`, `retry_failed_hosts`, `retry_interval` and
`skip_validation`; `retry_max_attempts` is absent (the attempt cap is read
from UI settings by the batch-result listener instead). -/
theorem batch_request_fields (hosts cfg : JSValue) (command : String)
    (mc ri : Int) (rf sv : Bool) :
    (mkBatchRequest hosts cfg command mc rf ri sv).fieldNames =
      ["hosts", "config_template", "command", "max_concurrent",
       "retry_failed_hosts", "retry_interval", "skip_validation"] ∧
    ((mkBatchRequest hosts cfg command mc rf ri sv).getField
        "retry_max_attempts").isUndefined = true :=
  ⟨rfl, rfl⟩

/-- Counterexample to C7: at `reconnect_attempts = 2`, `base = 1`, the
estimate accounts 1 second of retry delay, not `base * (2 ^ 2 - 1) = 3`. -/
theorem delaySum_not_full_geometric :
    delaySum 2 1 ≠ 1 * ((2 : ℚ) ^ 2 - 1) := by
  norm_num [delaySum]

/-- C7 amended: for `n ≥ 1` attempts the estimate sums the delays
`base * 2 ^ (i - 1)` of retries `i = 1 .. n - 1` — the delays between `n`
connection attempts — totalling `base * (2 ^ (n - 1) - 1)` seconds. -/
theorem delaySum_eq_partial_geometric (n : Nat) (base : ℚ) (hn : 1 ≤ n) :
    delaySum n base = base * ((2 : ℚ) ^ (n - 1) - 1) ∧
    delaySum n base = ∑ i in Finset.range (n - 1), base * (2 : ℚ) ^ i := by
  have h1 : delaySum n base = base * ((2 : ℚ) ^ (n - 1) - 1) := by
    rcases Nat.lt_or_ge 1 n with hlt | hge
    · simp [delaySum, hlt]
    · have hn1 : n = 1 := le_antisymm hge hn
      subst hn1
      simp [delaySum]
  refine ⟨h1, ?_⟩
  have hsum : ∑ i in Finset.range (n - 1), (2 : ℚ) ^ i = 2 ^ (n - 1) - 1 := by
    rw [geom_sum_eq (by norm_num : (2 : ℚ) ≠ 1)]
    norm_num
  rw [h1, ← Finset.mul_sum, hsum]

/-- Witness for the amended C7 at `n = 3`, `base = 1/2`. -/
theorem delaySum_eq_partial_geometric_witness :
    (1 ≤ 3 ∧
      delaySum 3 (1 / 2) = (1 / 2 : ℚ) * ((2 : ℚ) ^ (3 - 1) - 1) ∧
      delaySum 3 (1 / 2) = ∑ i in Finset.range (3 - 1), (1 / 2 : ℚ) * (2 : ℚ) ^ i) :=
  ⟨by norm_num, delaySum_eq_partial_geometric 3 (1 / 2) (by norm_num)⟩

/-- A character of the split input that is not the separator lands in one of
the produced parts (accumulator form). -/
lemma mem_splitCharAux (sep x : Char) (hx : x ≠ sep) :
    ∀ (l acc : List Char), (x ∈ l ∨ x ∈ acc) →
      ∃ p ∈ splitCharAux sep l acc, x ∈ p := by
  intro l
  induction l with
  | nil =>
    intro acc hmem
    rcases hmem with h | h
    · exact absurd h (List.not_mem_nil x)
    · exact ⟨acc.reverse, by simp [splitCharAux], by simpa using h⟩
  | cons c cs ih =>
    intro acc hmem
    by_cases hcs : c = sep
    · subst hcs
      simp only [splitCharAux, if_pos rfl]
      rcases hmem with h | h
      · rcases List.mem_cons.mp h with h1 | h1
        · exact absurd h1 hx
        · obtain ⟨p, hp, hxp⟩ := ih [] (Or.inl h1)
          exact ⟨p, by simp [hp], hxp⟩
      · exact ⟨acc.reverse, by simp, by simpa using h⟩
    · simp only [splitCharAux, if_neg hcs]
      apply ih (c :: acc)
      rcases hmem with h | h
      · rcases List.mem_cons.mp h with h1 | h1
        · exact Or.inr (by simp [h1])
        · exact Or.inl h1
      · exact Or.inr (List.mem_cons_of_mem _ h)

/-- A character of the split input that is not the separator lands in one of
the parts of `splitChar`. -/
lemma mem_splitChar (sep x : Char) (l : List Char) (hx : x ≠ sep)
    (hm : x ∈ l) : ∃ p ∈ splitChar sep l, x ∈ p :=
  mem_splitCharAux sep x hx l [] (Or.inl hm)

/-- A string containing a colon cannot be a dotted-quad IPv4 literal. -/
lemma validateIp_colon (s : String) (hc : ':' ∈ s.data) :
    validateIp s = false := by
  rcases hv : validateIp s with _ | _
  · rfl
  · exfalso
    obtain ⟨p, hp, hxp⟩ := mem_splitChar '.' ':' s.data (by decide) hc
    simp only [validateIp, Bool.and_eq_true] at hv
    obtain ⟨hfmt, _⟩ := hv
    simp only [ipFormatOk, Bool.and_eq_true, List.all_eq_true] at hfmt
    have hdig := (hfmt.2 p hp).2
    exact absurd (hdig ':' hxp) (by decide)

/-- Every character of a valid DNS label is alphanumeric or a hyphen. -/
lemma validLabel_chars (p : List Char) (hp : validLabel p = true) :
    ∀ x ∈ p, labelChar x = true := by
  cases p with
  | nil => exact absurd hp (by simp [validLabel])
  | cons c rest =>
    have hall : (c :: rest).all labelChar = true := by
      simp only [validLabel, Bool.and_eq_true] at hp
      exact hp.2
    exact List.all_eq_true.mp hall

/-- A string containing a colon cannot be a valid DNS hostname. -/
lemma validateHostname_colon (s : String) (hc : ':' ∈ s.data) :
    validateHostname s = false := by
  rcases hv : validateHostname s with _ | _
  · rfl
  · exfalso
    unfold validateHostname at hv
    split at hv
    · simp at hv
    · rw [List.all_eq_true] at hv
      obtain ⟨p, hp, hxp⟩ := mem_splitChar '.' ':' s.data (by decide) hc
      exact absurd (validLabel_chars p (hv p hp) ':' hxp) (by decide)

/-- A configuration whose host contains a colon fails `validateSshConfig`
with the host-format error. -/
lemma validateSshConfig_colon_host (cfg : SshConfigInput)
    (hc : ':' ∈ cfg.host.data) : (validateSshConfig cfg).valid = false := by
  have hne : cfg.host ≠ "" := by
    intro h0
    rw [h0] at hc
    exact absurd hc (by decide)
  have hnb : cfg.host ≠ "batch" := by
    intro h0
    rw [h0] at hc
    exact absurd hc (by decide)
  have hip := validateIp_colon cfg.host hc
  have hhn := validateHostname_colon cfg.host hc
  simp only [validateSshConfig]
  rw [if_neg (by tauto : ¬(cfg.host = "" ∨ cfg.host = "batch"))]
  rw [if_pos (by simp [hip, hhn])]
  simp

/-- Counterexample to C8: the IPv6 loopback literal `::1` is rejected by both
host validators and by `validateSshConfig`, while an IPv4 literal and a DNS
name are accepted. -/
theorem ipv6_literal_rejected :
    validateIp "::1" = false ∧ validateHostname "::1" = false ∧
    (validateSshConfig ipv6Probe).valid = false ∧
    validateIp "10.0.0.1" = true ∧
    validateHostname "fleet.example.com" = true :=
  ⟨by decide, by decide, by decide, by decide, by decide⟩

/-- C8 amended: host validation accepts only IPv4 dotted-quad literals and
DNS hostnames; every host string containing a colon — hence every textual
IPv6 literal — is rejected by `validateIp`, `validateHostname`, and by
`validateSshConfig` on any configuration carrying it. -/
theorem host_with_colon_rejected (s : String) (hc : ':' ∈ s.data) :
    validateIp s = false ∧ validateHostname s = false ∧
    (∀ cfg : SshConfigInput, cfg.host = s →
      (validateSshConfig cfg).valid = false) := by
  refine ⟨validateIp_colon s hc, validateHostname_colon s hc, ?_⟩
  intro cfg hh
  exact validateSshConfig_colon_host cfg (hh.symm ▸ hc)

/-- Witness for the amended C8 at the literal `::1`. -/
theorem host_with_colon_rejected_witness :
    (':' ∈ "::1".data) ∧
    (validateIp "::1" = false ∧ validateHostname "::1" = false ∧
      (∀ cfg : SshConfigInput, cfg.host = "::1" →
        (validateSshConfig cfg).valid = false)) :=
  ⟨by decide, host_with_colon_rejected "::1" (by decide)⟩

/-- One scheduler transition keeps the open-session count at the cap. -/
lemma schedStep_running_le (maxC : Nat) (s : SchedState) (a : SchedAction)
    (hs : s.running ≤ maxC) : (schedStep maxC s a).running ≤ maxC := by
  cases a with
  | dispatch =>
    simp only [schedStep]
    split
    · next hcond => exact hcond.2
    · exact hs
  | complete =>
    simp only [schedStep]
    split
    · exact le_trans (Nat.sub_le _ _) hs
    · exact hs

/-- C9 (spec-modelled): along every sequence of atomic dispatch/complete
events from a fresh batch, the number of concurrently open SSH sessions
never exceeds `max_concurrent`. -/
theorem concurrency_bound (maxConcurrent totalHosts : Nat)
    (as : List SchedAction) :
    (schedRun maxConcurrent totalHosts as).running ≤ maxConcurrent := by
  have key : ∀ (l : List SchedAction) (s : SchedState),
      s.running ≤ maxConcurrent →
      (l.foldl (schedStep maxConcurrent) s).running ≤ maxConcurrent := by
    intro l
    induction l with
    | nil => intro s hs; exact hs
    | cons a rest ih => intro s hs; exact ih _ (schedStep_running_le _ _ _ hs)
  exact key as (schedInit totalHosts) (Nat.zero_le _)
